import Mathlib

/-!
Shallow embedding of the `order-api` request pipeline (an HTTP order-ingestion
gateway): configuration, order schema validation, the order handler that
publishes to a queue and mints a presigned polling URL, token issue/validation,
per-key rate limiting, the request-id middleware and the readiness checks.

External collaborators (the queue client, the store client, the JWT library,
UUID generation and the wall clock) are modelled as explicit oracle functions
or parameters; every call issued to a collaborator is recorded as an `Effect`
so that "no network call was made" is the statement `effects = []`.
-/

namespace OrderApi

/-- Application settings (`config.py`, class `Settings`): the fields the
pipeline reads. `sqs_queue_url` and `ddb_table` default to `None` in the
source, hence `Option String`. -/
structure Settings where
  sqs_queue_url : Option String
  ddb_table : Option String
  jwt_secret : String
  jwt_algorithm : String
  jwt_expires_minutes : Nat
deriving DecidableEq

/-- Python truthiness of an optional string, as used by
`if not settings.sqs_queue_url`: `None` and `""` are falsy. -/
def isConfigured : Option String → Bool
  | none => false
  | some s => !(s == "")

/-- Validated order input (`schemas.py`, `OrderIn`): `user_id` a string of
length 1..50, `amount` a positive integer. The bounds are enforced by
`validate_order_in` at the boundary. -/
structure OrderIn where
  user_id : String
  amount : Int
deriving DecidableEq

/-- A raw request-body `amount` field: either an integer JSON value or
something that is not an integer (`PositiveInt` rejects the latter). -/
inductive JsonAmount
  | int (i : Int)
  | nonInt
deriving DecidableEq

/-- A raw request body for `POST /orders` (and `POST /login`), before
validation against `OrderIn`. -/
structure RawOrderIn where
  user_id : String
  amount : JsonAmount
deriving DecidableEq

/-- Body validation (`schemas.py`, `OrderIn` field constraints:
`min_length=1, max_length=50` on `user_id`; `PositiveInt`/`gt=0` on
`amount`). `none` means the request fails validation (HTTP 422). -/
def validate_order_in (r : RawOrderIn) : Option OrderIn :=
  match r.amount with
  | .nonInt => none
  | .int i =>
    if 1 ≤ r.user_id.length ∧ r.user_id.length ≤ 50 ∧ 0 < i then
      some ⟨r.user_id, i⟩
    else none

/-- An HTTP error as raised via `HTTPException(status_code, detail)`. -/
structure HTTPError where
  statusCode : Nat
  detail : String
deriving DecidableEq

/-- The body of the message published to the queue (`handler.py` lines
48-54): `json.dumps({"order_id": ..., "user_id": ..., "amount": ...})`,
kept structured. -/
structure OrderMessageBody where
  order_id : String
  user_id : String
  amount : Int
deriving DecidableEq

/-- Arguments of the `sqs.send_message` call (`handler.py` lines 46-57). -/
structure SqsMessage where
  queueUrl : String
  body : OrderMessageBody
  messageGroupId : String
  messageDeduplicationId : String
deriving DecidableEq

/-- Arguments of the `ddb.generate_presigned_url` call (`handler.py`
lines 89-97). -/
structure PresignRequest where
  clientMethod : String
  tableName : String
  keyOrderId : String
  expiresIn : Nat
  httpMethod : String
deriving DecidableEq

/-- A call issued to an external collaborator. A network call is performed
exactly when such an effect is recorded. -/
inductive Effect
  | sqsSend (msg : SqsMessage)
  | ddbPresign (req : PresignRequest)
deriving DecidableEq

/-- Outcome of a collaborator call: success, a `BotoCoreError`, a
`ClientError`, or any other unexpected exception; failures carry the
exception's text. -/
inductive CallResult (α : Type)
  | ok (val : α)
  | botoCoreError (msg : String)
  | clientError (msg : String)
  | otherError (msg : String)
deriving DecidableEq

/-- `handler.py`, `handle_order`: check the queue URL setting, publish the
order message, check the table setting, mint the presigned polling URL.
Collaborator behaviour is supplied by the oracles `sqsSendResult` and
`ddbPresignResult`; every call attempted is recorded in the returned effect
list, in order. -/
def handle_order (s : Settings) (sqsSendResult : SqsMessage → CallResult Unit)
    (ddbPresignResult : PresignRequest → CallResult String)
    (order_id : String) (order_in : OrderIn) (user_id : String) :
    Except HTTPError String × List Effect :=
  if !isConfigured s.sqs_queue_url then
    (.error ⟨503, "Queue service not configured"⟩, [])
  else
    let msg : SqsMessage :=
      { queueUrl := s.sqs_queue_url.getD ""
        body := { order_id := order_id, user_id := user_id,
                  amount := order_in.amount }
        messageGroupId := user_id
        messageDeduplicationId := order_id }
    match sqsSendResult msg with
    | .botoCoreError _ => (.error ⟨502, "Queue service unavailable"⟩, [.sqsSend msg])
    | .clientError _ => (.error ⟨502, "Queue service unavailable"⟩, [.sqsSend msg])
    | .otherError _ => (.error ⟨500, "Internal server error"⟩, [.sqsSend msg])
    | .ok _ =>
      if !isConfigured s.ddb_table then
        (.error ⟨503, "Database service not configured"⟩, [.sqsSend msg])
      else
        let req : PresignRequest :=
          { clientMethod := "get_item"
            tableName := s.ddb_table.getD ""
            keyOrderId := order_id
            expiresIn := 300
            httpMethod := "GET" }
        match ddbPresignResult req with
        | .botoCoreError _ =>
            (.error ⟨502, "Database service unavailable"⟩, [.sqsSend msg, .ddbPresign req])
        | .clientError _ =>
            (.error ⟨502, "Database service unavailable"⟩, [.sqsSend msg, .ddbPresign req])
        | .otherError _ =>
            (.error ⟨500, "Internal server error"⟩, [.sqsSend msg, .ddbPresign req])
        | .ok url => (.ok url, [.sqsSend msg, .ddbPresign req])

/-- A JWT claims payload: optional subject (`sub`) and expiry instant
(`exp`, seconds since the epoch). -/
structure JwtPayload where
  sub : Option String
  exp : Nat
deriving DecidableEq

/-- Modelled from the spec: the `python-jose` token format — an opaque
signed string encoding the payload under a symmetric secret and an
algorithm name; kept structured so that decode can check them. -/
structure Jwt where
  payload : JwtPayload
  secret : String
  alg : String
deriving DecidableEq

/-- The decode failure kinds raised as `JWTError` by the JWT library. -/
inductive JWTError
  | invalidSignature
  | invalidAlgorithm
  | expired
deriving DecidableEq

/-- The message text carried by each `JWTError`. -/
def jwtErrorText : JWTError → String
  | .invalidSignature => "Signature verification failed."
  | .invalidAlgorithm => "The specified alg value is not allowed"
  | .expired => "Signature has expired."

/-- Modelled from the spec: `jwt.encode(claims, secret, algorithm)` of the
external JWT library — signs the payload under the secret and algorithm. -/
def jwt_encode (payload : JwtPayload) (secret : String) (alg : String) : Jwt :=
  ⟨payload, secret, alg⟩

/-- Modelled from the spec: `jwt.decode(token, secret, algorithms)` of the
external JWT library — verifies the symmetric signature (secret must match),
the algorithm (must be among the allowed ones) and the expiry claim
(`Expired` when past expiry), then returns the payload. -/
def jwt_decode (tok : Jwt) (secret : String) (algs : List String) (now : Nat) :
    Except JWTError JwtPayload :=
  if tok.secret ≠ secret then .error .invalidSignature
  else if tok.alg ∉ algs then .error .invalidAlgorithm
  else if tok.payload.exp < now then .error .expired
  else .ok tok.payload

/-- `auth.py`, `create_access_token`: encode `{"sub": subject, "exp": now +
jwt_expires_minutes}` under the configured secret and algorithm. `now` is
the wall clock at issuance, in seconds since the epoch. -/
def create_access_token (s : Settings) (now : Nat) (subject : String) : Jwt :=
  jwt_encode { sub := some subject, exp := now + s.jwt_expires_minutes * 60 }
    s.jwt_secret s.jwt_algorithm

/-- `auth.py`, `get_current_user` composed with the `HTTPBearer` security
dependency: a missing Authorization header is rejected by `HTTPBearer` with
403 before the handler runs; otherwise the token is decoded with the
configured secret and algorithm, a decode failure yields 401 with the
exception text appended, and a payload lacking `sub` yields 401. -/
def get_current_user (s : Settings) (now : Nat) (credentials : Option Jwt) :
    Except HTTPError String :=
  match credentials with
  | none => .error ⟨403, "Not authenticated"⟩
  | some tok =>
    match jwt_decode tok s.jwt_secret [s.jwt_algorithm] now with
    | .error e => .error ⟨401, "Invalid or expired token: " ++ jwtErrorText e⟩
    | .ok payload =>
      match payload.sub with
      | none => .error ⟨401, "Invalid token: missing subject"⟩
      | some uid => .ok uid

/-- Modelled from the spec: the rate limiter's `allow(key)` capability
(`slowapi` is an external collaborator; §4.3 leaves the algorithm open and
this is the fixed-window counter instance). Admit while the key's in-window
count is below `N`, incrementing that key's counter; reject otherwise,
leaving all counters unchanged. -/
def allow (N : Nat) (counts : String → Nat) (key : String) :
    Bool × (String → Nat) :=
  if counts key < N then
    (true, fun k => if k = key then counts key + 1 else counts k)
  else (false, counts)

/-- Run one rate-limit window: process a sequence of request keys through
`allow`, returning the admission log (key, admitted?) and final counters. -/
def runWindow (N : Nat) (counts : String → Nat) :
    List String → List (String × Bool) × (String → Nat)
  | [] => ([], counts)
  | key :: rest =>
    let step := allow N counts key
    let tail := runWindow N step.2 rest
    ((key, step.1) :: tail.1, tail.2)

/-- Number of admitted requests for a given key in an admission log. -/
def admittedCount (k : String) (log : List (String × Bool)) : Nat :=
  (log.filter fun p => p.1 == k && p.2).length

/-- Modelled from the spec: `uuid.uuid4()` — a fresh identifier per draw,
with UUID-grade collision-freeness modelled as an injective stream indexed
by a draw counter; every drawn identifier is non-empty. -/
def uuid4 (draw : Nat) : String :=
  String.mk (List.replicate (draw + 1) 'u')

/-- Render a number under 100 with two digits. -/
def pad2 (n : Nat) : String :=
  if n < 10 then "0" ++ toString n else toString n

/-- Civil calendar date (year, month, day) from days since 1970-01-01. -/
def civilFromDays (days : Nat) : Nat × Nat × Nat :=
  let z := days + 719468
  let era := z / 146097
  let doe := z % 146097
  let yoe := (doe - doe / 1460 + doe / 36524 - doe / 146096) / 365
  let y := yoe + era * 400
  let doy := doe - (365 * yoe + yoe / 4 - yoe / 100)
  let mp := (5 * doy + 2) / 153
  let d := doy - (153 * mp + 2) / 5 + 1
  let m := if mp < 10 then mp + 3 else mp - 9
  (if m ≤ 2 then y + 1 else y, m, d)

/-- Modelled from the spec: `datetime.now(timezone.utc).isoformat()` — the
ISO-8601 UTC rendering of the current instant (`now` in seconds since the
epoch), at second granularity. -/
def isoformatUTC (now : Nat) : String :=
  let days := now / 86400
  let secs := now % 86400
  let ymd := civilFromDays days
  toString ymd.1 ++ "-" ++ pad2 ymd.2.1 ++ "-" ++ pad2 ymd.2.2 ++ "T" ++
    pad2 (secs / 3600) ++ ":" ++ pad2 (secs % 3600 / 60) ++ ":" ++
    pad2 (secs % 60) ++ "+00:00"

/-- `schemas.py`, `OrderOut`: the 202 response body; `status` is the literal
`"PENDING"`. -/
structure OrderOut where
  order_id : String
  poll_url : String
  status : String
  requested_at : String
deriving DecidableEq

/-- `main.py`, body of the `create_order` endpoint: draw a fresh order id,
take the current UTC timestamp, run `handle_order`, and on success assemble
the `OrderOut` response. `draw` indexes the UUID draw, `now` is the wall
clock in epoch seconds. -/
def create_order (s : Settings) (now : Nat) (draw : Nat) (user_id : String)
    (order_in : OrderIn) (sqsSendResult : SqsMessage → CallResult Unit)
    (ddbPresignResult : PresignRequest → CallResult String) :
    Except HTTPError OrderOut × List Effect :=
  let order_id := uuid4 draw
  let requested_at := isoformatUTC now
  match handle_order s sqsSendResult ddbPresignResult order_id order_in user_id with
  | (.error e, effs) => (.error e, effs)
  | (.ok url, effs) =>
    (.ok { order_id := order_id, poll_url := url, status := "PENDING",
           requested_at := requested_at }, effs)

/-- Result of processing one `POST /orders` request: the response (the
`.ok` case is served with status 202), the collaborator calls performed,
the rate-limiter counters afterwards, and whether the order pipeline
(`handle_order`) was invoked. -/
structure RouteResult where
  response : Except HTTPError OrderOut
  effects : List Effect
  counts : String → Nat
  pipelineInvoked : Bool

/-- The `POST /orders` route (`main.py`, `create_order` with its
dependencies): authentication (`HTTPBearer` + `get_current_user`) runs
first, then body validation against `OrderIn`, then the rate limiter
decorating the endpoint, and only then the endpoint body. `limitKey` is the
caller's resolved rate-limit key (remote address, or the `"unknown"`
sentinel). -/
def post_orders (s : Settings) (N : Nat) (counts : String → Nat)
    (limitKey : String) (credentials : Option Jwt) (now : Nat)
    (raw : RawOrderIn) (draw : Nat)
    (sqsSendResult : SqsMessage → CallResult Unit)
    (ddbPresignResult : PresignRequest → CallResult String) : RouteResult :=
  match get_current_user s now credentials with
  | .error e => ⟨.error e, [], counts, false⟩
  | .ok user_id =>
    match validate_order_in raw with
    | none => ⟨.error ⟨422, "Unprocessable Entity"⟩, [], counts, false⟩
    | some order_in =>
      let step := allow N counts limitKey
      if step.1 then
        let r := create_order s now draw user_id order_in sqsSendResult
          ddbPresignResult
        ⟨r.1, r.2, step.2, true⟩
      else
        ⟨.error ⟨429, "Rate limit exceeded"⟩, [], step.2, false⟩

/-- HTTP status actually sent for a `POST /orders` outcome: the route is
declared with `status_code=202`, errors carry their own code. -/
def statusOf : Except HTTPError OrderOut → Nat
  | .ok _ => 202
  | .error e => e.statusCode

/-- `deps.py`, `set_request_id`: take the inbound `X-Request-ID` header if
it is truthy (`or` falls through on `None` and on the empty string), else a
freshly generated identifier. -/
def set_request_id (header : Option String) (fresh : String) : String :=
  match header with
  | none => fresh
  | some v => if v == "" then fresh else v

/-- `main.py`, `add_request_id_middleware`: every response produced by the
inner application is returned together with the `X-Request-ID` header value
chosen by `set_request_id`. -/
def add_request_id_middleware {α : Type} (inboundHeader : Option String)
    (fresh : String) (inner : α) : α × String :=
  (inner, set_request_id inboundHeader fresh)

/-- `main.py`, `validate_required_settings`: collect the missing required
settings and raise `ValueError` naming them if any; run at startup by the
lifespan handler, so the application serves requests only when this
returns successfully. -/
def validate_required_settings (s : Settings) : Except String Unit :=
  let missing :=
    (if !isConfigured s.sqs_queue_url then ["SQS_QUEUE_URL"] else []) ++
    (if !isConfigured s.ddb_table then ["DDB_TABLE"] else [])
  if missing.isEmpty then .ok ()
  else
    .error ("Missing required configuration: " ++
      String.intercalate ", " missing ++
      ". Please set these environment variables before starting the application.")

/-- `main.py`, the `GET /ready` endpoint: 503 naming the missing
configuration keys when either is unset, else 200 with status `"ready"`. -/
def ready (s : Settings) : Except HTTPError String :=
  let missing :=
    (if !isConfigured s.sqs_queue_url then ["sqs_queue_url"] else []) ++
    (if !isConfigured s.ddb_table then ["ddb_table"] else [])
  if missing.isEmpty then .ok "ready"
  else
    .error ⟨503, "Service not ready: missing configuration for " ++
      String.intercalate ", " missing⟩

/-! ## Rate-limiter window lemmas -/

/-- After a window run, a key's counter equals its initial value plus the
number of requests admitted for that key during the run. -/
theorem runWindow_counts_eq (N : Nat) (k : String) (keys : List String) :
    ∀ counts : String → Nat,
      (runWindow N counts keys).2 k =
        counts k + admittedCount k (runWindow N counts keys).1 := by
  induction keys with
  | nil => intro counts; simp [runWindow, admittedCount]
  | cons key rest ih =>
    intro counts
    have hAdm : ∀ (b : Bool) (l : List (String × Bool)),
        admittedCount k ((key, b) :: l) =
          (if (key == k && b) = true then 1 else 0) + admittedCount k l := by
      intro b l
      by_cases hb : (key == k && b) = true
      · simp [admittedCount, List.filter_cons, hb]
        omega
      · simp [admittedCount, List.filter_cons, hb]
    have hmain : (runWindow N counts (key :: rest)).2 k =
        (runWindow N (allow N counts key).2 rest).2 k := rfl
    have hlog : (runWindow N counts (key :: rest)).1 =
        (key, (allow N counts key).1) ::
          (runWindow N (allow N counts key).2 rest).1 := rfl
    rw [hmain, hlog, hAdm, ih]
    by_cases h : counts key < N
    · by_cases hk : key = k
      · subst hk
        simp [allow, h]
        omega
      · have hkk : ¬(k = key) := fun hx => hk hx.symm
        simp [allow, h, hk, hkk]
    · simp [allow, h]

/-- A window run never pushes a key's counter above the limit, provided it
started at or below the limit. -/
theorem runWindow_counts_le (N : Nat) (k : String) (keys : List String) :
    ∀ counts : String → Nat, counts k ≤ N → (runWindow N counts keys).2 k ≤ N := by
  induction keys with
  | nil => intro counts hc; simpa [runWindow] using hc
  | cons key rest ih =>
    intro counts hc
    have hmain : (runWindow N counts (key :: rest)).2 k =
        (runWindow N (allow N counts key).2 rest).2 k := rfl
    rw [hmain]
    apply ih
    by_cases h : counts key < N
    · by_cases hk : k = key
      · subst hk
        simp [allow, h]
        omega
      · simpa [allow, h, hk] using hc
    · simpa [allow, h] using hc

/-! ## C1 -/

/-- C1 counterexample: the claim "if either `sqs_queue_url` or `ddb_table`
is not configured, `handle_order` fails with 503 before any network call —
in particular no queue publish is performed" is false: with
`sqs_queue_url` configured and `ddb_table` unset, `handle_order` does fail
with 503, but the queue publish has already been performed. -/
theorem handle_order_publishes_despite_missing_table :
    isConfigured
      (Settings.mk (some "https://sqs.test/q") none "secret" "HS256" 60).ddb_table
        = false ∧
    (handle_order (Settings.mk (some "https://sqs.test/q") none "secret" "HS256" 60)
        (fun _ => .ok ()) (fun _ => .ok "http://signed-url.test")
        "order123" (OrderIn.mk "user123" 1000) "user123").1 =
      .error ⟨503, "Database service not configured"⟩ ∧
    (handle_order (Settings.mk (some "https://sqs.test/q") none "secret" "HS256" 60)
        (fun _ => .ok ()) (fun _ => .ok "http://signed-url.test")
        "order123" (OrderIn.mk "user123" 1000) "user123").2 =
      [.sqsSend (SqsMessage.mk "https://sqs.test/q"
        (OrderMessageBody.mk "order123" "user123" 1000) "user123" "order123")] := by
  refine ⟨rfl, rfl, rfl⟩

/-- C1 (amended): if `sqs_queue_url` is not configured, `handle_order`
fails with 503 before any network call (no effects); if `sqs_queue_url` is
configured but `ddb_table` is not, `handle_order` also fails with 503 and
performs no presigned-URL call, but the queue publish HAS been performed
first (exactly one effect, the `sqs.send_message` call). -/
theorem handle_order_not_configured (s : Settings)
    (sqsSendResult : SqsMessage → CallResult Unit)
    (ddbPresignResult : PresignRequest → CallResult String)
    (order_id : String) (order_in : OrderIn) (user_id : String) :
    (isConfigured s.sqs_queue_url = false →
      handle_order s sqsSendResult ddbPresignResult order_id order_in user_id =
        (.error ⟨503, "Queue service not configured"⟩, [])) ∧
    (isConfigured s.sqs_queue_url = true → isConfigured s.ddb_table = false →
      (∀ m, sqsSendResult m = .ok ()) →
      handle_order s sqsSendResult ddbPresignResult order_id order_in user_id =
        (.error ⟨503, "Database service not configured"⟩,
         [.sqsSend ⟨s.sqs_queue_url.getD "",
            ⟨order_id, user_id, order_in.amount⟩, user_id, order_id⟩])) := by
  constructor
  · intro h1
    simp [handle_order, h1]
  · intro h1 h2 hok
    simp [handle_order, h1, h2, hok]

/-- Witness for C1's amended theorem: both branches at concrete inputs. -/
theorem handle_order_not_configured_witness :
    (handle_order (Settings.mk none (some "orders") "secret" "HS256" 60)
        (fun _ => .ok ()) (fun _ => .ok "u") "oid" (OrderIn.mk "alice" 5) "alice" =
      (.error ⟨503, "Queue service not configured"⟩, [])) ∧
    (handle_order (Settings.mk (some "https://sqs.test/q") none "secret" "HS256" 60)
        (fun _ => .ok ()) (fun _ => .ok "u") "oid" (OrderIn.mk "alice" 5) "alice" =
      (.error ⟨503, "Database service not configured"⟩,
       [.sqsSend ⟨(some "https://sqs.test/q").getD "",
          ⟨"oid", "alice", (5 : Int)⟩, "alice", "oid"⟩])) := by
  constructor
  · exact (handle_order_not_configured
      (Settings.mk none (some "orders") "secret" "HS256" 60)
      (fun _ => .ok ()) (fun _ => .ok "u") "oid" (OrderIn.mk "alice" 5) "alice").1
      (by decide)
  · exact (handle_order_not_configured
      (Settings.mk (some "https://sqs.test/q") none "secret" "HS256" 60)
      (fun _ => .ok ()) (fun _ => .ok "u") "oid" (OrderIn.mk "alice" 5) "alice").2
      (by decide) (by decide) (fun _ => rfl)

/-! ## C2 -/

/-- C2: per-key rate limiting. (1) Within any window, at most `N` requests
from any key are admitted (starting from fresh counters). (2) An in-window
request beyond the limit (key's counter already at `N`) that has passed
authentication and body validation is rejected with 429, the order pipeline
is not invoked and no collaborator call is made. (3) One key's admission
leaves every other key's counter — hence its admission decisions —
unaffected. -/
theorem rate_limit_per_key (N : Nat) (keys : List String) (k : String)
    (s : Settings) (counts : String → Nat) (limitKey : String)
    (credentials : Option Jwt) (now : Nat) (raw : RawOrderIn) (draw : Nat)
    (sqsSendResult : SqsMessage → CallResult Unit)
    (ddbPresignResult : PresignRequest → CallResult String) :
    admittedCount k (runWindow N (fun _ => 0) keys).1 ≤ N ∧
    (∀ uid oin, get_current_user s now credentials = .ok uid →
      validate_order_in raw = some oin → N ≤ counts limitKey →
      (post_orders s N counts limitKey credentials now raw draw
          sqsSendResult ddbPresignResult).response =
        .error ⟨429, "Rate limit exceeded"⟩ ∧
      (post_orders s N counts limitKey credentials now raw draw
          sqsSendResult ddbPresignResult).effects = [] ∧
      (post_orders s N counts limitKey credentials now raw draw
          sqsSendResult ddbPresignResult).pipelineInvoked = false) ∧
    (∀ k2, k2 ≠ limitKey → (allow N counts limitKey).2 k2 = counts k2) := by
  refine ⟨?_, ?_, ?_⟩
  · have h1 := runWindow_counts_eq N k keys (fun _ => 0)
    have h2 := runWindow_counts_le N k keys (fun _ => 0) (Nat.zero_le N)
    omega
  · intro uid oin hauth hbody hge
    have hstep : (allow N counts limitKey).1 = false := by
      have : ¬counts limitKey < N := by omega
      simp [allow, this]
    refine ⟨?_, ?_, ?_⟩ <;>
      simp [post_orders, hauth, hbody, hstep]
  · intro k2 hk2
    by_cases h : counts limitKey < N
    · simp [allow, h, hk2]
    · simp [allow, h]

/-- Witness for C2: limit 2, three same-key requests admit two and reject
the third; the over-limit `POST /orders` request is rejected with 429 with
no pipeline invocation; an unrelated key's counter is untouched. -/
theorem rate_limit_per_key_witness :
    admittedCount "10.0.0.1"
      (runWindow 2 (fun _ => 0) ["10.0.0.1", "10.0.0.1", "10.0.0.1"]).1 ≤ 2 ∧
    ((post_orders (Settings.mk (some "https://sqs.test/q") (some "orders")
          "secret" "HS256" 60) 2 (fun _ => 2) "10.0.0.1"
        (some (create_access_token (Settings.mk (some "https://sqs.test/q")
          (some "orders") "secret" "HS256" 60) 1000 "alice")) 1000
        (RawOrderIn.mk "alice" (.int 5)) 0
        (fun _ => .ok ()) (fun _ => .ok "http://signed-url.test")).response =
      .error ⟨429, "Rate limit exceeded"⟩ ∧
     (post_orders (Settings.mk (some "https://sqs.test/q") (some "orders")
          "secret" "HS256" 60) 2 (fun _ => 2) "10.0.0.1"
        (some (create_access_token (Settings.mk (some "https://sqs.test/q")
          (some "orders") "secret" "HS256" 60) 1000 "alice")) 1000
        (RawOrderIn.mk "alice" (.int 5)) 0
        (fun _ => .ok ()) (fun _ => .ok "http://signed-url.test")).effects = [] ∧
     (post_orders (Settings.mk (some "https://sqs.test/q") (some "orders")
          "secret" "HS256" 60) 2 (fun _ => 2) "10.0.0.1"
        (some (create_access_token (Settings.mk (some "https://sqs.test/q")
          (some "orders") "secret" "HS256" 60) 1000 "alice")) 1000
        (RawOrderIn.mk "alice" (.int 5)) 0
        (fun _ => .ok ()) (fun _ => .ok "http://signed-url.test")).pipelineInvoked
        = false) ∧
    (allow 2 (fun _ => 2) "10.0.0.1").2 "10.0.0.2" = 2 := by
  have h := rate_limit_per_key 2 ["10.0.0.1", "10.0.0.1", "10.0.0.1"] "10.0.0.1"
    (Settings.mk (some "https://sqs.test/q") (some "orders") "secret" "HS256" 60)
    (fun _ => 2) "10.0.0.1"
    (some (create_access_token (Settings.mk (some "https://sqs.test/q")
      (some "orders") "secret" "HS256" 60) 1000 "alice")) 1000
    (RawOrderIn.mk "alice" (.int 5)) 0
    (fun _ => .ok ()) (fun _ => .ok "http://signed-url.test")
  exact ⟨h.1, h.2.1 "alice" (OrderIn.mk "alice" 5) rfl rfl
    (by decide), h.2.2 "10.0.0.2" (by decide)⟩

/-! ## C3 -/

/-- C3: a request body whose `amount` is not a positive integer (non-integer
or ≤ 0) or whose `user_id` has length 0 or above 50 is rejected by
`POST /orders` with 422, and neither `handle_order` nor any collaborator
(queue publish, presigned-URL generation) is invoked. (Stated for requests
that pass authentication; an unauthenticated request is rejected by the
security dependency first.) -/
theorem invalid_body_rejected (s : Settings) (N : Nat) (counts : String → Nat)
    (limitKey : String) (credentials : Option Jwt) (now : Nat)
    (raw : RawOrderIn) (draw : Nat)
    (sqsSendResult : SqsMessage → CallResult Unit)
    (ddbPresignResult : PresignRequest → CallResult String) (uid : String)
    (hauth : get_current_user s now credentials = .ok uid)
    (hbad : (∀ i, raw.amount = JsonAmount.int i → i ≤ 0) ∨
      raw.user_id.length = 0 ∨ 50 < raw.user_id.length) :
    statusOf (post_orders s N counts limitKey credentials now raw draw
        sqsSendResult ddbPresignResult).response = 422 ∧
    (post_orders s N counts limitKey credentials now raw draw
        sqsSendResult ddbPresignResult).effects = [] ∧
    (post_orders s N counts limitKey credentials now raw draw
        sqsSendResult ddbPresignResult).pipelineInvoked = false := by
  have hval : validate_order_in raw = none := by
    unfold validate_order_in
    cases hamInt : raw.amount with
    | nonInt => rfl
    | int i =>
      rcases hbad with hneg | hlen | hlen
      · have : i ≤ 0 := hneg i hamInt
        have hcond : ¬(1 ≤ raw.user_id.length ∧ raw.user_id.length ≤ 50 ∧ 0 < i) := by
          rintro ⟨-, -, hi⟩
          omega
        simp [hcond]
      · have hcond : ¬(1 ≤ raw.user_id.length ∧ raw.user_id.length ≤ 50 ∧ 0 < i) := by
          rintro ⟨hx, -, -⟩
          omega
        simp [hcond]
      · have hcond : ¬(1 ≤ raw.user_id.length ∧ raw.user_id.length ≤ 50 ∧ 0 < i) := by
          rintro ⟨-, hx, -⟩
          omega
        simp [hcond]
  refine ⟨?_, ?_, ?_⟩ <;> simp [post_orders, hauth, hval, statusOf]

/-- Witness for C3: an authenticated request whose body has `amount = 0`
is rejected with 422 and no collaborator is called. -/
theorem invalid_body_rejected_witness :
    statusOf (post_orders (Settings.mk (some "https://sqs.test/q")
        (some "orders") "secret" "HS256" 60) 100 (fun _ => 0) "10.0.0.1"
        (some (create_access_token (Settings.mk (some "https://sqs.test/q")
          (some "orders") "secret" "HS256" 60) 1000 "alice")) 1000
        (RawOrderIn.mk "alice" (.int 0)) 0
        (fun _ => .ok ()) (fun _ => .ok "http://signed-url.test")).response
      = 422 ∧
    (post_orders (Settings.mk (some "https://sqs.test/q")
        (some "orders") "secret" "HS256" 60) 100 (fun _ => 0) "10.0.0.1"
        (some (create_access_token (Settings.mk (some "https://sqs.test/q")
          (some "orders") "secret" "HS256" 60) 1000 "alice")) 1000
        (RawOrderIn.mk "alice" (.int 0)) 0
        (fun _ => .ok ()) (fun _ => .ok "http://signed-url.test")).effects = [] ∧
    (post_orders (Settings.mk (some "https://sqs.test/q")
        (some "orders") "secret" "HS256" 60) 100 (fun _ => 0) "10.0.0.1"
        (some (create_access_token (Settings.mk (some "https://sqs.test/q")
          (some "orders") "secret" "HS256" 60) 1000 "alice")) 1000
        (RawOrderIn.mk "alice" (.int 0)) 0
        (fun _ => .ok ()) (fun _ => .ok "http://signed-url.test")).pipelineInvoked
      = false := by
  exact invalid_body_rejected (Settings.mk (some "https://sqs.test/q")
    (some "orders") "secret" "HS256" 60) 100 (fun _ => 0) "10.0.0.1"
    (some (create_access_token (Settings.mk (some "https://sqs.test/q")
      (some "orders") "secret" "HS256" 60) 1000 "alice")) 1000
    (RawOrderIn.mk "alice" (.int 0)) 0
    (fun _ => .ok ()) (fun _ => .ok "http://signed-url.test") "alice"
    rfl (.inl (by intro i hi; cases hi; omega))

/-! ## C4 -/

/-- C4: a token issued by `create_access_token` for subject `S` and decoded
with the same configured secret and algorithm (at any instant `t` not past
its expiry) yields subject `S`, and its expiry claim equals the issuance
instant plus the configured TTL (`now + jwt_expires_minutes`, in minutes),
in particular within the ±5s tolerance. -/
theorem token_roundtrip (s : Settings) (S : String) (now t : Nat)
    (h : t ≤ now + s.jwt_expires_minutes * 60) :
    jwt_decode (create_access_token s now S) s.jwt_secret [s.jwt_algorithm] t =
      .ok ⟨some S, now + s.jwt_expires_minutes * 60⟩ ∧
    (create_access_token s now S).payload.sub = some S ∧
    (create_access_token s now S).payload.exp -
      (now + s.jwt_expires_minutes * 60) ≤ 5 ∧
    (now + s.jwt_expires_minutes * 60) -
      (create_access_token s now S).payload.exp ≤ 5 := by
  have hexp : ¬((create_access_token s now S).payload.exp < t) := by
    simp only [create_access_token, jwt_encode]
    omega
  refine ⟨?_, rfl, by simp [create_access_token, jwt_encode], by
    simp [create_access_token, jwt_encode]⟩
  simp [jwt_decode, create_access_token, jwt_encode] at hexp ⊢
  omega

/-- Witness for C4: a token for "alice" issued at 1000 with a 60-minute TTL
decodes at 1000 to subject "alice" with expiry 1000 + 3600. -/
theorem token_roundtrip_witness :
    jwt_decode (create_access_token
        (Settings.mk (some "q") (some "t") "secret" "HS256" 60) 1000 "alice")
        "secret" ["HS256"] 1000 =
      .ok ⟨some "alice", 1000 + 60 * 60⟩ ∧
    (create_access_token (Settings.mk (some "q") (some "t") "secret" "HS256" 60)
        1000 "alice").payload.sub = some "alice" := by
  have h := token_roundtrip
    (Settings.mk (some "q") (some "t") "secret" "HS256" 60) "alice" 1000 1000
    (by omega)
  exact ⟨h.1, h.2.1⟩

/-! ## C5 -/

/-- C5: on `POST /orders`, a request with no Authorization header is
rejected with 403; a request whose token is expired, or signed with a
different secret, or whose decoded payload lacks a subject, is rejected
with 401 in each case — and in all four cases no collaborator is called. -/
theorem auth_rejections (s : Settings) (N : Nat) (counts : String → Nat)
    (limitKey : String) (now : Nat) (raw : RawOrderIn) (draw : Nat)
    (sqsSendResult : SqsMessage → CallResult Unit)
    (ddbPresignResult : PresignRequest → CallResult String) (tok : Jwt) :
    (statusOf (post_orders s N counts limitKey none now raw draw
        sqsSendResult ddbPresignResult).response = 403 ∧
     (post_orders s N counts limitKey none now raw draw
        sqsSendResult ddbPresignResult).effects = []) ∧
    (tok.secret = s.jwt_secret → tok.alg = s.jwt_algorithm →
      tok.payload.exp < now →
      statusOf (post_orders s N counts limitKey (some tok) now raw draw
          sqsSendResult ddbPresignResult).response = 401 ∧
      (post_orders s N counts limitKey (some tok) now raw draw
          sqsSendResult ddbPresignResult).effects = []) ∧
    (tok.secret ≠ s.jwt_secret →
      statusOf (post_orders s N counts limitKey (some tok) now raw draw
          sqsSendResult ddbPresignResult).response = 401 ∧
      (post_orders s N counts limitKey (some tok) now raw draw
          sqsSendResult ddbPresignResult).effects = []) ∧
    (tok.secret = s.jwt_secret → tok.alg = s.jwt_algorithm →
      ¬(tok.payload.exp < now) → tok.payload.sub = none →
      statusOf (post_orders s N counts limitKey (some tok) now raw draw
          sqsSendResult ddbPresignResult).response = 401 ∧
      (post_orders s N counts limitKey (some tok) now raw draw
          sqsSendResult ddbPresignResult).effects = []) := by
  refine ⟨?_, ?_, ?_, ?_⟩
  · constructor <;> simp [post_orders, get_current_user, statusOf]
  · intro hsec halg hexp
    constructor <;>
      simp [post_orders, get_current_user, jwt_decode, hsec, halg, hexp, statusOf]
  · intro hsec
    constructor <;>
      simp [post_orders, get_current_user, jwt_decode, hsec, statusOf]
  · intro hsec halg hexp hsub
    constructor <;>
      simp [post_orders, get_current_user, jwt_decode, hsec, halg, hexp, hsub,
        statusOf]

/-- Witness for C5: concrete instances of all four rejections — missing
header, expired token, wrong-secret token, and missing-subject token. -/
theorem auth_rejections_witness :
    statusOf (post_orders (Settings.mk (some "q") (some "t") "secret" "HS256" 60)
        100 (fun _ => 0) "ip" none 1000 (RawOrderIn.mk "alice" (.int 5)) 0
        (fun _ => .ok ()) (fun _ => .ok "u")).response = 403 ∧
    statusOf (post_orders (Settings.mk (some "q") (some "t") "secret" "HS256" 60)
        100 (fun _ => 0) "ip"
        (some (Jwt.mk ⟨some "alice", 10⟩ "secret" "HS256")) 1000
        (RawOrderIn.mk "alice" (.int 5)) 0
        (fun _ => .ok ()) (fun _ => .ok "u")).response = 401 ∧
    statusOf (post_orders (Settings.mk (some "q") (some "t") "secret" "HS256" 60)
        100 (fun _ => 0) "ip"
        (some (Jwt.mk ⟨some "alice", 5000⟩ "other-secret" "HS256")) 1000
        (RawOrderIn.mk "alice" (.int 5)) 0
        (fun _ => .ok ()) (fun _ => .ok "u")).response = 401 ∧
    statusOf (post_orders (Settings.mk (some "q") (some "t") "secret" "HS256" 60)
        100 (fun _ => 0) "ip"
        (some (Jwt.mk ⟨none, 5000⟩ "secret" "HS256")) 1000
        (RawOrderIn.mk "alice" (.int 5)) 0
        (fun _ => .ok ()) (fun _ => .ok "u")).response = 401 := by
  refine ⟨?_, ?_, ?_, ?_⟩
  · exact (auth_rejections (Settings.mk (some "q") (some "t") "secret" "HS256" 60)
      100 (fun _ => 0) "ip" 1000 (RawOrderIn.mk "alice" (.int 5)) 0
      (fun _ => .ok ()) (fun _ => .ok "u")
      (Jwt.mk ⟨some "alice", 10⟩ "secret" "HS256")).1.1
  · exact ((auth_rejections (Settings.mk (some "q") (some "t") "secret" "HS256" 60)
      100 (fun _ => 0) "ip" 1000 (RawOrderIn.mk "alice" (.int 5)) 0
      (fun _ => .ok ()) (fun _ => .ok "u")
      (Jwt.mk ⟨some "alice", 10⟩ "secret" "HS256")).2.1 rfl rfl
      (by decide)).1
  · exact ((auth_rejections (Settings.mk (some "q") (some "t") "secret" "HS256" 60)
      100 (fun _ => 0) "ip" 1000 (RawOrderIn.mk "alice" (.int 5)) 0
      (fun _ => .ok ()) (fun _ => .ok "u")
      (Jwt.mk ⟨some "alice", 5000⟩ "other-secret" "HS256")).2.2.1
      (by decide)).1
  · exact ((auth_rejections (Settings.mk (some "q") (some "t") "secret" "HS256" 60)
      100 (fun _ => 0) "ip" 1000 (RawOrderIn.mk "alice" (.int 5)) 0
      (fun _ => .ok ()) (fun _ => .ok "u")
      (Jwt.mk ⟨none, 5000⟩ "secret" "HS256")).2.2.2 rfl rfl
      (by decide) rfl).1

/-! ## C6 -/

/-- C6: inside `handle_order` (with both identifiers configured), a
`BotoCoreError` or `ClientError` from the queue publish or from polling
handle construction yields 502, any other unexpected exception yields 500;
the 500 response carries exactly the generic detail "Internal server error"
and the whole outcome is independent of the underlying exception's text
(so the text never reaches the response). -/
theorem collaborator_failure_statuses (s : Settings)
    (sqsSendResult : SqsMessage → CallResult Unit)
    (ddbPresignResult : PresignRequest → CallResult String)
    (order_id : String) (order_in : OrderIn) (user_id : String)
    (e1 e2 : String)
    (h1 : isConfigured s.sqs_queue_url = true)
    (h2 : isConfigured s.ddb_table = true) :
    ((∀ m, sqsSendResult m = .botoCoreError e1) →
      (handle_order s sqsSendResult ddbPresignResult order_id order_in user_id).1 =
        .error ⟨502, "Queue service unavailable"⟩) ∧
    ((∀ m, sqsSendResult m = .clientError e1) →
      (handle_order s sqsSendResult ddbPresignResult order_id order_in user_id).1 =
        .error ⟨502, "Queue service unavailable"⟩) ∧
    ((∀ m, sqsSendResult m = .otherError e1) →
      (handle_order s sqsSendResult ddbPresignResult order_id order_in user_id).1 =
        .error ⟨500, "Internal server error"⟩) ∧
    ((∀ m, sqsSendResult m = .ok ()) →
      (∀ r, ddbPresignResult r = .botoCoreError e2) →
      (handle_order s sqsSendResult ddbPresignResult order_id order_in user_id).1 =
        .error ⟨502, "Database service unavailable"⟩) ∧
    ((∀ m, sqsSendResult m = .ok ()) →
      (∀ r, ddbPresignResult r = .clientError e2) →
      (handle_order s sqsSendResult ddbPresignResult order_id order_in user_id).1 =
        .error ⟨502, "Database service unavailable"⟩) ∧
    ((∀ m, sqsSendResult m = .ok ()) →
      (∀ r, ddbPresignResult r = .otherError e2) →
      (handle_order s sqsSendResult ddbPresignResult order_id order_in user_id).1 =
        .error ⟨500, "Internal server error"⟩) ∧
    (∀ e e' : String,
      handle_order s (fun _ => .otherError e) ddbPresignResult
          order_id order_in user_id =
        handle_order s (fun _ => .otherError e') ddbPresignResult
          order_id order_in user_id) ∧
    (∀ e e' : String,
      handle_order s (fun _ => .ok ()) (fun _ => .otherError e)
          order_id order_in user_id =
        handle_order s (fun _ => .ok ()) (fun _ => .otherError e')
          order_id order_in user_id) := by
  refine ⟨?_, ?_, ?_, ?_, ?_, ?_, ?_, ?_⟩
  · intro hs
    simp [handle_order, h1, h2, hs]
  · intro hs
    simp [handle_order, h1, h2, hs]
  · intro hs
    simp [handle_order, h1, h2, hs]
  · intro hs hd
    simp [handle_order, h1, h2, hs, hd]
  · intro hs hd
    simp [handle_order, h1, h2, hs, hd]
  · intro hs hd
    simp [handle_order, h1, h2, hs, hd]
  · intro e e'
    simp [handle_order, h1, h2]
  · intro e e'
    simp [handle_order, h1, h2]

/-- Witness for C6: concrete 502 and 500 outcomes for queue and store
failures under a fully configured application. -/
theorem collaborator_failure_statuses_witness :
    ((handle_order (Settings.mk (some "https://sqs.test/q") (some "orders")
        "secret" "HS256" 60) (fun _ => .botoCoreError "conn reset")
        (fun _ => .ok "u") "oid" (OrderIn.mk "alice" 5) "alice").1 =
      .error ⟨502, "Queue service unavailable"⟩) ∧
    ((handle_order (Settings.mk (some "https://sqs.test/q") (some "orders")
        "secret" "HS256" 60) (fun _ => .otherError "boom")
        (fun _ => .ok "u") "oid" (OrderIn.mk "alice" 5) "alice").1 =
      .error ⟨500, "Internal server error"⟩) ∧
    ((handle_order (Settings.mk (some "https://sqs.test/q") (some "orders")
        "secret" "HS256" 60) (fun _ => .ok ())
        (fun _ => .clientError "denied") "oid" (OrderIn.mk "alice" 5) "alice").1 =
      .error ⟨502, "Database service unavailable"⟩) ∧
    ((handle_order (Settings.mk (some "https://sqs.test/q") (some "orders")
        "secret" "HS256" 60) (fun _ => .ok ())
        (fun _ => .otherError "boom") "oid" (OrderIn.mk "alice" 5) "alice").1 =
      .error ⟨500, "Internal server error"⟩) ∧
    handle_order (Settings.mk (some "https://sqs.test/q") (some "orders")
        "secret" "HS256" 60) (fun _ => .otherError "secret traceback")
        (fun _ => .ok "u") "oid" (OrderIn.mk "alice" 5) "alice" =
      handle_order (Settings.mk (some "https://sqs.test/q") (some "orders")
        "secret" "HS256" 60) (fun _ => .otherError "")
        (fun _ => .ok "u") "oid" (OrderIn.mk "alice" 5) "alice" := by
  have h := collaborator_failure_statuses
    (Settings.mk (some "https://sqs.test/q") (some "orders") "secret" "HS256" 60)
    (fun _ => .botoCoreError "conn reset") (fun _ => .ok "u")
    "oid" (OrderIn.mk "alice" 5) "alice" "conn reset" "denied"
    (by decide) (by decide)
  have h2 := collaborator_failure_statuses
    (Settings.mk (some "https://sqs.test/q") (some "orders") "secret" "HS256" 60)
    (fun _ => .otherError "boom") (fun _ => .clientError "denied")
    "oid" (OrderIn.mk "alice" 5) "alice" "boom" "denied"
    (by decide) (by decide)
  have h3 := collaborator_failure_statuses
    (Settings.mk (some "https://sqs.test/q") (some "orders") "secret" "HS256" 60)
    (fun _ => .ok ()) (fun _ => .clientError "denied")
    "oid" (OrderIn.mk "alice" 5) "alice" "x" "denied"
    (by decide) (by decide)
  have h4 := collaborator_failure_statuses
    (Settings.mk (some "https://sqs.test/q") (some "orders") "secret" "HS256" 60)
    (fun _ => .ok ()) (fun _ => .otherError "boom")
    "oid" (OrderIn.mk "alice" 5) "alice" "x" "boom"
    (by decide) (by decide)
  exact ⟨h.1 (fun _ => rfl), h2.2.2.1 (fun _ => rfl),
    h3.2.2.2.2.1 (fun _ => rfl) (fun _ => rfl),
    h4.2.2.2.2.2.1 (fun _ => rfl) (fun _ => rfl),
    h.2.2.2.2.2.2.1 "secret traceback" ""⟩

/-! ## C7 -/

/-- C7: on a successful `handle_order` run, the published message has body
`{order_id, user_id, amount}`, group id `user_id` and deduplication id
`order_id`, and the returned polling handle comes from a presigned
`get_item` request on the configured table keyed by `order_id` with an
expiry of exactly 300 seconds; the whole run is independent of the
configured token TTL (`jwt_expires_minutes`). -/
theorem successful_submission_shape (s : Settings)
    (sqsSendResult : SqsMessage → CallResult Unit)
    (ddbPresignResult : PresignRequest → CallResult String)
    (order_id : String) (order_in : OrderIn) (user_id : String) (url : String)
    (h1 : isConfigured s.sqs_queue_url = true)
    (h2 : isConfigured s.ddb_table = true)
    (hs : ∀ m, sqsSendResult m = .ok ())
    (hd : ∀ r, ddbPresignResult r = .ok url) :
    handle_order s sqsSendResult ddbPresignResult order_id order_in user_id =
      (.ok url,
       [.sqsSend ⟨s.sqs_queue_url.getD "",
          ⟨order_id, user_id, order_in.amount⟩, user_id, order_id⟩,
        .ddbPresign ⟨"get_item", s.ddb_table.getD "", order_id, 300, "GET"⟩]) ∧
    (∀ ttl : Nat,
      handle_order { s with jwt_expires_minutes := ttl } sqsSendResult
          ddbPresignResult order_id order_in user_id =
        handle_order s sqsSendResult ddbPresignResult order_id order_in user_id) := by
  constructor
  · simp [handle_order, h1, h2, hs, hd]
  · intro ttl
    cases s
    rfl

/-- Witness for C7: a concrete successful run publishes the expected
message and mints a 300-second presigned `get_item` URL. -/
theorem successful_submission_shape_witness :
    handle_order (Settings.mk (some "https://sqs.test/q") (some "orders")
        "secret" "HS256" 60) (fun _ => .ok ())
        (fun _ => .ok "http://signed-url.test") "order123"
        (OrderIn.mk "bodyuser" 1000) "alice" =
      (.ok "http://signed-url.test",
       [.sqsSend ⟨(some "https://sqs.test/q").getD "",
          ⟨"order123", "alice", (1000 : Int)⟩, "alice", "order123"⟩,
        .ddbPresign ⟨"get_item", (some "orders").getD "", "order123", 300,
          "GET"⟩]) := by
  exact (successful_submission_shape
    (Settings.mk (some "https://sqs.test/q") (some "orders") "secret" "HS256" 60)
    (fun _ => .ok ()) (fun _ => .ok "http://signed-url.test")
    "order123" (OrderIn.mk "bodyuser" 1000) "alice" "http://signed-url.test"
    (by decide) (by decide) (fun _ => rfl) (fun _ => rfl)).1

/-! ## C8 -/

/-- The length of a drawn identifier is one more than its draw index. -/
theorem uuid4_length (d : Nat) : (uuid4 d).length = d + 1 := by
  simp [uuid4, String.length]

/-- C8: an authenticated, admitted, validly-shaped `POST /orders` with
succeeding collaborators responds 202 with body: the freshly drawn
`order_id` (non-empty, and distinct across distinct draws), status exactly
"PENDING", the minted `poll_url`, and `requested_at` the ISO-8601 UTC
rendering of the request instant. -/
theorem accepted_order_response (s : Settings) (N : Nat)
    (counts : String → Nat) (limitKey : String) (credentials : Option Jwt)
    (now : Nat) (raw : RawOrderIn) (draw : Nat)
    (sqsSendResult : SqsMessage → CallResult Unit)
    (ddbPresignResult : PresignRequest → CallResult String)
    (uid : String) (oin : OrderIn) (url : String)
    (hauth : get_current_user s now credentials = .ok uid)
    (hbody : validate_order_in raw = some oin)
    (hunder : counts limitKey < N)
    (h1 : isConfigured s.sqs_queue_url = true)
    (h2 : isConfigured s.ddb_table = true)
    (hs : ∀ m, sqsSendResult m = .ok ())
    (hd : ∀ r, ddbPresignResult r = .ok url) :
    statusOf (post_orders s N counts limitKey credentials now raw draw
        sqsSendResult ddbPresignResult).response = 202 ∧
    (post_orders s N counts limitKey credentials now raw draw
        sqsSendResult ddbPresignResult).response =
      .ok ⟨uuid4 draw, url, "PENDING", isoformatUTC now⟩ ∧
    uuid4 draw ≠ "" ∧
    (∀ d1 d2 : Nat, d1 ≠ d2 → uuid4 d1 ≠ uuid4 d2) := by
  have hstep : (allow N counts limitKey).1 = true := by
    simp [allow, hunder]
  have hresp : (post_orders s N counts limitKey credentials now raw draw
      sqsSendResult ddbPresignResult).response =
        .ok ⟨uuid4 draw, url, "PENDING", isoformatUTC now⟩ := by
    simp [post_orders, hauth, hbody, hstep, create_order, handle_order,
      h1, h2, hs, hd]
  refine ⟨by rw [hresp]; rfl, hresp, ?_, ?_⟩
  · intro hc
    have hlen := congrArg String.length hc
    rw [uuid4_length] at hlen
    simp [String.length] at hlen
  · intro d1 d2 hne hc
    apply hne
    have hlen := congrArg String.length hc
    rw [uuid4_length, uuid4_length] at hlen
    omega

/-- Witness for C8: a concrete admitted, authenticated, valid submission
responds 202 with the drawn order id, "PENDING" status, the minted URL and
the request timestamp. -/
theorem accepted_order_response_witness :
    statusOf (post_orders (Settings.mk (some "https://sqs.test/q")
        (some "orders") "secret" "HS256" 60) 100 (fun _ => 0) "10.0.0.1"
        (some (create_access_token (Settings.mk (some "https://sqs.test/q")
          (some "orders") "secret" "HS256" 60) 1000 "alice")) 1000
        (RawOrderIn.mk "alice" (.int 5)) 0
        (fun _ => .ok ()) (fun _ => .ok "http://signed-url.test")).response
      = 202 ∧
    (post_orders (Settings.mk (some "https://sqs.test/q")
        (some "orders") "secret" "HS256" 60) 100 (fun _ => 0) "10.0.0.1"
        (some (create_access_token (Settings.mk (some "https://sqs.test/q")
          (some "orders") "secret" "HS256" 60) 1000 "alice")) 1000
        (RawOrderIn.mk "alice" (.int 5)) 0
        (fun _ => .ok ()) (fun _ => .ok "http://signed-url.test")).response =
      .ok ⟨uuid4 0, "http://signed-url.test", "PENDING", isoformatUTC 1000⟩ ∧
    uuid4 0 ≠ uuid4 1 := by
  have h := accepted_order_response (Settings.mk (some "https://sqs.test/q")
    (some "orders") "secret" "HS256" 60) 100 (fun _ => 0) "10.0.0.1"
    (some (create_access_token (Settings.mk (some "https://sqs.test/q")
      (some "orders") "secret" "HS256" 60) 1000 "alice")) 1000
    (RawOrderIn.mk "alice" (.int 5)) 0
    (fun _ => .ok ()) (fun _ => .ok "http://signed-url.test")
    "alice" (OrderIn.mk "alice" 5) "http://signed-url.test"
    rfl rfl (by decide) (by decide) (by decide) (fun _ => rfl) (fun _ => rfl)
  exact ⟨h.1, h.2.1, h.2.2.2 0 1 (by decide)⟩

/-! ## C9 -/

/-- C9 counterexample: the claim "if the inbound request carried an
`X-Request-ID` header value, that value is echoed back exactly" is false
for the empty header value: `or`-falsiness makes `set_request_id` replace
an inbound empty string with the freshly generated identifier. -/
theorem request_id_empty_value_not_echoed :
    (add_request_id_middleware (some "") "generated-id" (200 : Nat)).2 ≠ "" ∧
    (add_request_id_middleware (some "") "generated-id" (200 : Nat)).2 =
      "generated-id" := by
  exact ⟨by decide, rfl⟩

/-- C9 (amended): every response leaves the middleware paired with an
`X-Request-ID` value chosen by `set_request_id`; a non-empty inbound header
value is echoed back exactly; when the header is absent — or carries the
empty string, which Python truthiness treats like absence — the freshly
generated identifier is used instead. -/
theorem request_id_header_echo {α : Type} (inbound : Option String)
    (fresh : String) (inner : α) (v : String) :
    add_request_id_middleware inbound fresh inner =
      (inner, set_request_id inbound fresh) ∧
    (v ≠ "" → (add_request_id_middleware (some v) fresh inner).2 = v) ∧
    (add_request_id_middleware none fresh inner).2 = fresh ∧
    (add_request_id_middleware (some "") fresh inner).2 = fresh := by
  refine ⟨rfl, ?_, rfl, by simp [add_request_id_middleware, set_request_id]⟩
  intro hv
  have hbeq : (v == "") = false := by
    simpa using hv
  simp [add_request_id_middleware, set_request_id, hbeq]

/-- Witness for C9's amended theorem: inbound "abc-123" is echoed exactly;
an absent header gets the generated identifier. -/
theorem request_id_header_echo_witness :
    (add_request_id_middleware (some "abc-123") "generated-id" (200 : Nat)).2 =
      "abc-123" ∧
    (add_request_id_middleware none "generated-id" (404 : Nat)).2 =
      "generated-id" := by
  exact ⟨(request_id_header_echo (some "abc-123") "generated-id" (200 : Nat)
      "abc-123").2.1 (by decide),
    (request_id_header_echo none "generated-id" (404 : Nat) "x").2.2.1⟩

/-! ## C10 -/

/-- With both identifiers configured, no outcome of `handle_order` carries
status 503: every failure is 502 or 500. -/
theorem handle_order_statusCode_ne_503 (s : Settings)
    (sqsSendResult : SqsMessage → CallResult Unit)
    (ddbPresignResult : PresignRequest → CallResult String)
    (order_id : String) (order_in : OrderIn) (user_id : String)
    (h1 : isConfigured s.sqs_queue_url = true)
    (h2 : isConfigured s.ddb_table = true) :
    ∀ e, (handle_order s sqsSendResult ddbPresignResult
      order_id order_in user_id).1 = .error e → e.statusCode ≠ 503 := by
  intro e he
  unfold handle_order at he
  simp only [h1, h2, Bool.not_true] at he
  cases hsq : sqsSendResult ⟨s.sqs_queue_url.getD "",
      ⟨order_id, user_id, order_in.amount⟩, user_id, order_id⟩ with
  | ok v =>
    cases hdb : ddbPresignResult ⟨"get_item", s.ddb_table.getD "",
        order_id, 300, "GET"⟩ with
    | ok url => simp [hsq, hdb] at he
    | botoCoreError m =>
      simp [hsq, hdb] at he
      simp [← he]
    | clientError m =>
      simp [hsq, hdb] at he
      simp [← he]
    | otherError m =>
      simp [hsq, hdb] at he
      simp [← he]
  | botoCoreError m =>
    simp [hsq] at he
    simp [← he]
  | clientError m =>
    simp [hsq] at he
    simp [← he]
  | otherError m =>
    simp [hsq] at he
    simp [← he]

/-- C10: startup validation succeeds exactly when both `sqs_queue_url` and
`ddb_table` are configured; a started application therefore has `GET
/ready` succeed and the not-configured 503 branches of `handle_order`
unreachable; conversely, with either setting unset the startup validation
raises (serves no requests). -/
theorem startup_validation_guards (s : Settings)
    (sqsSendResult : SqsMessage → CallResult Unit)
    (ddbPresignResult : PresignRequest → CallResult String)
    (order_id : String) (order_in : OrderIn) (user_id : String) :
    (validate_required_settings s = .ok () ↔
      (isConfigured s.sqs_queue_url = true ∧ isConfigured s.ddb_table = true)) ∧
    (validate_required_settings s = .ok () → ready s = .ok "ready") ∧
    (validate_required_settings s = .ok () →
      ∀ e, (handle_order s sqsSendResult ddbPresignResult
        order_id order_in user_id).1 = .error e → e.statusCode ≠ 503) ∧
    ((isConfigured s.sqs_queue_url = false ∨ isConfigured s.ddb_table = false) →
      validate_required_settings s ≠ .ok ()) := by
  have hiff : validate_required_settings s = .ok () ↔
      (isConfigured s.sqs_queue_url = true ∧ isConfigured s.ddb_table = true) := by
    cases hq : isConfigured s.sqs_queue_url <;>
      cases hdb : isConfigured s.ddb_table <;>
      simp [validate_required_settings, hq, hdb]
  refine ⟨hiff, ?_, ?_, ?_⟩
  · intro hok
    obtain ⟨h1, h2⟩ := hiff.mp hok
    simp [ready, h1, h2]
  · intro hok
    obtain ⟨h1, h2⟩ := hiff.mp hok
    exact handle_order_statusCode_ne_503 s sqsSendResult ddbPresignResult
      order_id order_in user_id h1 h2
  · intro hbad hok
    obtain ⟨h1, h2⟩ := hiff.mp hok
    rcases hbad with hb | hb
    · rw [h1] at hb
      cases hb
    · rw [h2] at hb
      cases hb

/-- Witness for C10: a fully configured application passes startup
validation, is ready, and a queue failure surfaces as 502 (not 503); an
application missing the queue URL fails startup validation. -/
theorem startup_validation_guards_witness :
    ready (Settings.mk (some "https://sqs.test/q") (some "orders")
      "secret" "HS256" 60) = .ok "ready" ∧
    ((handle_order (Settings.mk (some "https://sqs.test/q") (some "orders")
        "secret" "HS256" 60) (fun _ => .botoCoreError "down") (fun _ => .ok "u")
        "oid" (OrderIn.mk "alice" 5) "alice").1 =
      .error ⟨502, "Queue service unavailable"⟩ → (502 : Nat) ≠ 503) ∧
    validate_required_settings (Settings.mk none (some "orders")
      "secret" "HS256" 60) ≠ .ok () := by
  have h := startup_validation_guards
    (Settings.mk (some "https://sqs.test/q") (some "orders") "secret" "HS256" 60)
    (fun _ => .botoCoreError "down") (fun _ => .ok "u")
    "oid" (OrderIn.mk "alice" 5) "alice"
  have hbad := startup_validation_guards
    (Settings.mk none (some "orders") "secret" "HS256" 60)
    (fun _ => .botoCoreError "down") (fun _ => .ok "u")
    "oid" (OrderIn.mk "alice" 5) "alice"
  exact ⟨h.2.1 rfl,
    fun hres => h.2.2.1 rfl ⟨502, "Queue service unavailable"⟩ hres,
    hbad.2.2.2 (Or.inl (by decide))⟩

end OrderApi
